import Mathlib

/-
Shallow embedding of `cloudiot_pubsub_example_mqtt_device.py`, a sample MQTT
IoT device.  The external libraries (json, jwt, paho-mqtt, serial, envirophat)
are modelled at their call boundary: `json.loads` by the decoded value an
inbound payload carries, `time.sleep`/`datetime.utcnow` by explicit clock
samples, the led and print side effects by an effect trace.
-/

namespace IotDevice

/-- Python values produced by `json.loads`.  JSON numbers are modelled as
rationals (exact values; the claims only exercise booleans and small
literals). -/
inductive JVal where
  | null
  | bool (b : Bool)
  | num (q : Rat)
  | str (s : String)
  | arr (items : List JVal)
  | obj (fields : List (String × JVal))

/-- Python `==` between decoded JSON values: `True == 1`, `False == 0`,
otherwise values of different shapes are unequal.  Containers are compared
pointwise in order (the claims only compare scalars; `json.loads` yields
dicts with unique keys). -/
def pyEq : JVal → JVal → Bool
  | JVal.null, JVal.null => true
  | JVal.bool a, JVal.bool b => a == b
  | JVal.bool a, JVal.num q => (if a then (1 : Rat) else 0) == q
  | JVal.num q, JVal.bool b => q == (if b then (1 : Rat) else 0)
  | JVal.num p, JVal.num q => p == q
  | JVal.str s, JVal.str t => s == t
  | JVal.arr (x :: xs), JVal.arr (y :: ys) =>
      pyEq x y && pyEq (JVal.arr xs) (JVal.arr ys)
  | JVal.arr [], JVal.arr [] => true
  | JVal.obj ((k, v) :: xs), JVal.obj ((l, w) :: ys) =>
      k == l && pyEq v w && pyEq (JVal.obj xs) (JVal.obj ys)
  | JVal.obj [], JVal.obj [] => true
  | _, _ => false

/-- Python truthiness of a decoded JSON value (`if self.led_on:`). -/
def JVal.truthy : JVal → Bool
  | JVal.null => false
  | JVal.bool b => b
  | JVal.num q => q != 0
  | JVal.str s => s != ""
  | JVal.arr items => !items.isEmpty
  | JVal.obj fields => !fields.isEmpty

/-- Exceptions the handler code can raise. -/
inductive PyError where
  | nameError (var : String)
  | keyError (key : String)
  | typeError (msg : String)
  | valueError (msg : String)
deriving DecidableEq, Repr

/-- Dict lookup on the field list of a decoded JSON object. -/
def lookupField : List (String × JVal) → String → Option JVal
  | [], _ => none
  | (k, v) :: rest, key => if k = key then some v else lookupField rest key

/-- Python subscription `data[key]`: `KeyError` on a dict without the key,
`TypeError` when `data` is not a dict. -/
def getItem : JVal → String → Except PyError JVal
  | JVal.obj fields, key =>
      match lookupField fields key with
      | some v => Except.ok v
      | none => Except.error (PyError.keyError key)
  | _, _ => Except.error (PyError.typeError "not subscriptable")

/-- Observable side effects of `Device.on_message`. -/
inductive Effect where
  | printReceived
  | printNoPayload
  | printExceptionCaught
  | jsonLoads
  | printLedOn
  | printLedOff
  | ledsOn
  | ledsOff
deriving DecidableEq, Repr

/-- An inbound MQTT payload at the `json.loads` boundary: empty bytes, bytes
that fail UTF-8/JSON decoding, or bytes decoding to a JSON value. -/
inductive InPayload where
  | empty
  | undecodable
  | json (j : JVal)

/-- State of the `Device` object (dynamic typing of `led_on` kept: the code
assigns it whatever JSON value `data['led_on']` holds). -/
structure DeviceState where
  proximity : Int
  ambient_lux : Int
  led_on : JVal
  connected : Bool
  accel_x : Int
  accel_y : Int
  accel_z : Int

/-- `Device.__init__`. -/
def device_init : DeviceState :=
  { proximity := 0, ambient_lux := 0, led_on := JVal.bool false,
    connected := false, accel_x := 0, accel_y := 0, accel_z := 0 }

/-- Outcome of running `Device.on_message`: the state it left behind, the
effect trace it performed, and the exception (if any) that escaped. -/
structure MsgResult where
  state : DeviceState
  effects : List Effect
  err : Option PyError

/-- `Device.on_message`.  The `try` block covers only `json.loads`; when
decoding fails the handler prints the exception and then falls through to
`data['led_on']` with the local `data` unbound, raising a `NameError`. -/
def on_message (st : DeviceState) (payload : InPayload) : MsgResult :=
  match payload with
  | InPayload.empty =>
      { state := st, effects := [Effect.printReceived, Effect.printNoPayload],
        err := none }
  | InPayload.undecodable =>
      { state := st,
        effects := [Effect.printReceived, Effect.jsonLoads,
          Effect.printExceptionCaught],
        err := some (PyError.nameError "data") }
  | InPayload.json data =>
      match getItem data "led_on" with
      | Except.error e =>
          { state := st, effects := [Effect.printReceived, Effect.jsonLoads],
            err := some e }
      | Except.ok v =>
          if pyEq v st.led_on then
            { state := st, effects := [Effect.printReceived, Effect.jsonLoads],
              err := none }
          else
            let st2 := { st with led_on := v }
            if v.truthy then
              { state := st2,
                effects := [Effect.printReceived, Effect.jsonLoads,
                  Effect.printLedOn, Effect.ledsOn],
                err := none }
            else
              { state := st2,
                effects := [Effect.printReceived, Effect.jsonLoads,
                  Effect.printLedOff, Effect.ledsOff],
                err := none }

/-- A Python scalar held in a `RemoteDevice` reading: the fields start as the
int `0` and are overwritten with the strings `re.findall` returns. -/
inductive SensorVal where
  | int (n : Int)
  | str (s : String)
deriving DecidableEq, Repr

/-- State of the `RemoteDevice` object (the five peripheral readings and its
unused connectivity flag). -/
structure RemoteState where
  temperature : SensorVal
  pressure : SensorVal
  humidity : SensorVal
  gas_resistance : SensorVal
  altitude : SensorVal
  connected : Bool
deriving DecidableEq, Repr

/-- `RemoteDevice.__init__` (state part; serial port and thread are modelled
by the line sequence fed to `read_loop`). -/
def remote_device_init : RemoteState :=
  { temperature := SensorVal.int 0, pressure := SensorVal.int 0,
    humidity := SensorVal.int 0, gas_resistance := SensorVal.int 0,
    altitude := SensorVal.int 0, connected := false }

/-- First match of the regex branch `\d*\.\d+` at the head of `cs` (no sign):
a maximal digit run, a dot, then a nonempty maximal digit run.  Returns the
matched characters and the remaining input.  `\d` is modelled as the ASCII
digits. -/
def matchUnsignedFloat (cs : List Char) : Option (List Char × List Char) :=
  match cs.dropWhile Char.isDigit with
  | c :: rest2 =>
      if c = '.' then
        if (rest2.takeWhile Char.isDigit).isEmpty then none
        else some (cs.takeWhile Char.isDigit ++ '.' :: rest2.takeWhile Char.isDigit,
          rest2.dropWhile Char.isDigit)
      else none
  | [] => none

/-- Regex branch `[-+]?\d*\.\d+` at the head of `cs`: the optional sign is
tried first with the sign consumed, then (backtracking) without. -/
def matchFloat (cs : List Char) : Option (List Char × List Char) :=
  match cs with
  | [] => none
  | c :: rest =>
      if c = '-' ∨ c = '+' then
        match matchUnsignedFloat rest with
        | some (m, r) => some (c :: m, r)
        | none => matchUnsignedFloat cs
      else matchUnsignedFloat cs

/-- Regex branch `\d+` at the head of `cs`: a nonempty maximal digit run. -/
def matchInt (cs : List Char) : Option (List Char × List Char) :=
  if (cs.takeWhile Char.isDigit).isEmpty then none
  else some (cs.takeWhile Char.isDigit, cs.dropWhile Char.isDigit)

/-- The alternation `[-+]?\d*\.\d+|\d+` at the head of `cs`: the float branch
is preferred, as in the Python regex engine. -/
def matchNumber (cs : List Char) : Option (List Char × List Char) :=
  match matchFloat cs with
  | some r => some r
  | none => matchInt cs

/-- Fuelled scan of `re.findall(r"[-+]?\d*\.\d+|\d+", ...)`: try a match at
each position, emit it and resume after it, else advance one character. -/
def findallNumAux : Nat → List Char → List String
  | 0, _ => []
  | _ + 1, [] => []
  | fuel + 1, c :: rest =>
      match matchNumber (c :: rest) with
      | some (m, r) => String.mk m :: findallNumAux fuel r
      | none => findallNumAux fuel rest

/-- `re.findall(r"[-+]?\d*\.\d+|\d+", input_data)`: every match consumes at
least one character, so the input length is enough fuel. -/
def findallNum (cs : List Char) : List String := findallNumAux cs.length cs

/-- Helper for Python `input_data.split(':', 1)[-1]`: the suffix after the
first colon, when there is one. -/
def afterColonAux : List Char → Option (List Char)
  | [] => none
  | c :: rest => if c = ':' then some rest else afterColonAux rest

/-- Python `input_data.split(':', 1)[-1]`: everything after the first colon,
or the whole string when it has no colon. -/
def afterColon (cs : List Char) : List Char := (afterColonAux cs).getD cs

/-- `RemoteDevice.process_input_sensor_data`: drop through the first colon,
extract the numeric tokens, and unpack them into the five readings.  Python
list unpacking checks the length before storing, so a count other than five
raises `ValueError` with no field assigned. -/
def process_input_sensor_data (st : RemoteState) (input_data : String) :
    Except PyError RemoteState :=
  match findallNum (afterColon input_data.toList) with
  | [a, b, c, d, e] =>
      Except.ok { st with
        temperature := SensorVal.str a, pressure := SensorVal.str b,
        humidity := SensorVal.str c, gas_resistance := SensorVal.str d,
        altitude := SensorVal.str e }
  | _ => Except.error (PyError.valueError "unpack")

/-- One line arriving on the serial port, at the `bytes.decode()` boundary:
either bytes decoding to a string or bytes that raise on decoding. -/
inductive SerialLine where
  | bytes (s : String)
  | undecodable

/-- `c` is one of the two line-terminator characters stripped by the reader. -/
def isCRLF (c : Char) : Bool := c = '\r' || c = '\n'

/-- Python `line.strip("\r\n")`: remove the terminator characters from both
ends. -/
def stripCRLF (cs : List Char) : List Char :=
  ((cs.dropWhile isCRLF).reverse.dropWhile isCRLF).reverse

/-- One iteration of `RemoteDevice.check_incoming_serial_data` that found a
line waiting: decode, strip, process; any exception is printed and ignored,
leaving the state unchanged. -/
def serial_iteration (st : RemoteState) (line : SerialLine) : RemoteState :=
  match line with
  | SerialLine.undecodable => st
  | SerialLine.bytes s =>
      match process_input_sensor_data st (String.mk (stripCRLF s.toList)) with
      | Except.ok st2 => st2
      | Except.error _ => st

/-- The background read loop of `RemoteDevice.check_incoming_serial_data`
over a sequence of available lines: it processes every line and survives
every failure. -/
def read_loop (st : RemoteState) (lines : List SerialLine) : RemoteState :=
  lines.foldl serial_iteration st

/-- The claim set of the token built by `create_jwt`: issued-at, expiry (in
seconds since the epoch) and audience. -/
structure JwtClaims where
  iat : Int
  exp : Int
  aud : String
deriving DecidableEq, Repr

/-- The token handed to `jwt.encode`: its claims, the private key read from
the key file, and the signing algorithm name.  The encoding itself is an
opaque external primitive; a token is identified by what is encoded. -/
structure JwtToken where
  claims : JwtClaims
  key : String
  algorithm : String
deriving DecidableEq, Repr

/-- `create_jwt`.  `utcnow` gives the successive `datetime.datetime.utcnow()`
samples (the code takes one for `iat` and a second one for `exp`);
`timedelta(minutes=60)` is 3600 seconds; `fs` models the file system, with
`none` for an unreadable key file (`open` raises and the call fails). -/
def create_jwt (project_id private_key_file algorithm : String)
    (utcnow : Nat → Int) (fs : String → Option String) : Option JwtToken :=
  let claims : JwtClaims :=
    { iat := utcnow 0, exp := utcnow 1 + 3600, aud := project_id }
  match fs private_key_file with
  | none => none
  | some private_key =>
      some { claims := claims, key := private_key, algorithm := algorithm }

/-- The polling loop of `Device.wait_for_connection`: `conn k` is the value
of `self.connected` sampled at the check made after `k` one-second sleeps;
the second argument is the elapsed seconds `total_time`, the third the
remaining allowance `timeout - total_time`.  Returns the elapsed seconds at
loop exit. -/
def wait_aux (conn : Nat → Bool) : Nat → Nat → Nat
  | t, 0 => t
  | t, rem + 1 => if conn t then t else wait_aux conn (t + 1) rem

/-- `Device.wait_for_connection`: poll once per second up to `timeout`, then
re-check the flag and raise `RuntimeError` if still unconnected.  The result
carries the elapsed seconds at which the call returns or raises. -/
def wait_for_connection (conn : Nat → Bool) (timeout : Nat) :
    Except String Nat :=
  if conn (wait_aux conn 0 timeout) then Except.ok (wait_aux conn 0 timeout)
  else Except.error "Could not connect to MQTT bridge."

/-- `Device.update_sensor_data`: overwrite the three acceleration fields with
the current `motion.accelerometer()` reading. -/
def update_sensor_data (st : DeviceState) (acc : Int × Int × Int) :
    DeviceState :=
  { st with accel_x := acc.1, accel_y := acc.2.1, accel_z := acc.2.2 }

/-- The telemetry topic string built in `main`. -/
def telemetry_topic (device_id : String) : String :=
  "/devices/" ++ device_id ++ "/events"

/-- The `json.dumps` argument of `main`: the published object, as its ordered
field list. -/
def publish_payload (d : DeviceState) (r : RemoteState) (now : String) :
    List (String × SensorVal) :=
  [("proximity", SensorVal.int d.proximity),
   ("luminance", SensorVal.int d.ambient_lux),
   ("accel_x", SensorVal.int d.accel_x),
   ("accel_y", SensorVal.int d.accel_y),
   ("accel_z", SensorVal.int d.accel_z),
   ("time", SensorVal.str now),
   ("temperature", r.temperature),
   ("pressure", r.pressure),
   ("humidity", r.humidity),
   ("gas_resistance", r.gas_resistance),
   ("altitude", r.altitude)]

/-- Externally visible actions of the main publishing loop. -/
inductive MainEffect where
  | publish (topic : String) (payload : List (String × SensorVal))
  | sleep (seconds : Nat)
deriving DecidableEq, Repr

/-- The body of `main`'s `for _ in range(args.num_messages)` loop, from
iteration `i` with `n` iterations left: update the sensor data, publish the
composed payload, sleep one second.  `accel`, `rem` and `now` sample the
accelerometer, the shared `RemoteDevice` state and the wall clock at each
iteration. -/
def main_loop_from (device_id : String) (accel : Nat → Int × Int × Int)
    (rem : Nat → RemoteState) (now : Nat → String) :
    DeviceState → Nat → Nat → List MainEffect
  | _, _, 0 => []
  | d, i, n + 1 =>
      let d2 := update_sensor_data d (accel i)
      MainEffect.publish (telemetry_topic device_id)
          (publish_payload d2 (rem i) (now i)) ::
        MainEffect.sleep 1 ::
        main_loop_from device_id accel rem now d2 (i + 1) n

/-- `main`'s publishing loop: `num_messages` iterations starting from the
initial device state. -/
def main_loop (device_id : String) (accel : Nat → Int × Int × Int)
    (rem : Nat → RemoteState) (now : Nat → String) (d : DeviceState)
    (num_messages : Nat) : List MainEffect :=
  main_loop_from device_id accel rem now d 0 num_messages

theorem findallNumAux_nil (n : Nat) : findallNumAux n [] = [] := by
  cases n <;> rfl

theorem takeWhile_append_all {p : Char → Bool} :
    ∀ (ds rest : List Char), (∀ c ∈ ds, p c = true) →
      (ds ++ rest).takeWhile p = ds ++ rest.takeWhile p := by
  intro ds
  induction ds with
  | nil => intro rest _; rfl
  | cons d ds ih =>
      intro rest h
      have hd : p d = true := h d (List.mem_cons_self d ds)
      simp only [List.cons_append, List.takeWhile_cons_of_pos hd]
      rw [ih rest fun c hc => h c (List.mem_cons_of_mem d hc)]

theorem dropWhile_append_all {p : Char → Bool} :
    ∀ (ds rest : List Char), (∀ c ∈ ds, p c = true) →
      (ds ++ rest).dropWhile p = rest.dropWhile p := by
  intro ds
  induction ds with
  | nil => intro rest _; rfl
  | cons d ds ih =>
      intro rest h
      have hd : p d = true := h d (List.mem_cons_self d ds)
      simp only [List.cons_append, List.dropWhile_cons_of_pos hd]
      exact ih rest fun c hc => h c (List.mem_cons_of_mem d hc)

theorem takeWhile_all {p : Char → Bool} (ds : List Char)
    (h : ∀ c ∈ ds, p c = true) : ds.takeWhile p = ds := by
  have := takeWhile_append_all ds [] h
  simpa using this

theorem dropWhile_all {p : Char → Bool} (ds : List Char)
    (h : ∀ c ∈ ds, p c = true) : ds.dropWhile p = [] := by
  have := dropWhile_append_all ds [] h
  simpa using this

theorem matchUnsignedFloat_all_digits (ds : List Char)
    (h : ∀ c ∈ ds, Char.isDigit c = true) : matchUnsignedFloat ds = none := by
  unfold matchUnsignedFloat
  rw [dropWhile_all ds h]

theorem matchUnsignedFloat_sign_head (c : Char) (rest : List Char)
    (hc : Char.isDigit c = false) (hdot : c ≠ '.') :
    matchUnsignedFloat (c :: rest) = none := by
  unfold matchUnsignedFloat
  rw [List.dropWhile_cons_of_neg (by simp [hc])]
  simp [hdot]

theorem matchNumber_all_digits (d : Char) (ds : List Char)
    (h : ∀ c ∈ d :: ds, Char.isDigit c = true) :
    matchNumber (d :: ds) = some (d :: ds, []) := by
  have hd : Char.isDigit d = true := h d (List.mem_cons_self d ds)
  have hne : ¬(d = '-' ∨ d = '+') := by
    rintro (rfl | rfl) <;> simp at hd
  have ht : (d :: ds).takeWhile Char.isDigit = d :: ds := takeWhile_all _ h
  have hdr : (d :: ds).dropWhile Char.isDigit = [] := dropWhile_all _ h
  have hmuf := matchUnsignedFloat_all_digits (d :: ds) h
  simp [matchNumber, matchFloat, matchInt, hne, hmuf, ht, hdr]

theorem matchNumber_dash_digits (ds : List Char)
    (h : ∀ c ∈ ds, Char.isDigit c = true) :
    matchNumber ('-' :: ds) = none := by
  have hmuf1 := matchUnsignedFloat_all_digits ds h
  have hmuf2 := matchUnsignedFloat_sign_head '-' ds (by decide) (by decide)
  have ht : ('-' :: ds).takeWhile Char.isDigit = [] :=
    List.takeWhile_cons_of_neg (by decide)
  simp [matchNumber, matchFloat, matchInt, hmuf1, hmuf2, ht]

theorem matchNumber_signed_float (c : Char) (ds ds2 : List Char)
    (hc : c = '-' ∨ c = '+') (h : ∀ a ∈ ds, Char.isDigit a = true)
    (h2ne : ds2 ≠ []) (h2 : ∀ a ∈ ds2, Char.isDigit a = true) :
    matchNumber (c :: (ds ++ '.' :: ds2)) =
      some (c :: (ds ++ '.' :: ds2), []) := by
  have hd1 : (ds ++ '.' :: ds2).dropWhile Char.isDigit = '.' :: ds2 := by
    rw [dropWhile_append_all ds _ h, List.dropWhile_cons_of_neg (by decide)]
  have ht1 : (ds ++ '.' :: ds2).takeWhile Char.isDigit = ds := by
    rw [takeWhile_append_all ds _ h, List.takeWhile_cons_of_neg (by decide),
      List.append_nil]
  have ht2 : ds2.takeWhile Char.isDigit = ds2 := takeWhile_all ds2 h2
  have hd2 : ds2.dropWhile Char.isDigit = [] := dropWhile_all ds2 h2
  have hmuf : matchUnsignedFloat (ds ++ '.' :: ds2) =
      some (ds ++ '.' :: ds2, []) := by
    unfold matchUnsignedFloat
    rw [hd1]
    simp [ht1, ht2, hd2, List.isEmpty_iff, h2ne]
  simp [matchNumber, matchFloat, hc, hmuf]

theorem findall_dash_int (d : Char) (ds : List Char)
    (h : ∀ c ∈ d :: ds, Char.isDigit c = true) :
    findallNum ('-' :: d :: ds) = [String.mk (d :: ds)] := by
  have h1 : matchNumber ('-' :: d :: ds) = none := matchNumber_dash_digits _ h
  have h2 : matchNumber (d :: ds) = some (d :: ds, []) :=
    matchNumber_all_digits d ds h
  unfold findallNum
  simp [findallNumAux, h1, h2, findallNumAux_nil]

theorem findall_signed_float (c : Char) (ds ds2 : List Char)
    (hc : c = '-' ∨ c = '+') (h : ∀ a ∈ ds, Char.isDigit a = true)
    (h2ne : ds2 ≠ []) (h2 : ∀ a ∈ ds2, Char.isDigit a = true) :
    findallNum (c :: (ds ++ '.' :: ds2)) =
      [String.mk (c :: (ds ++ '.' :: ds2))] := by
  have h1 := matchNumber_signed_float c ds ds2 hc h h2ne h2
  unfold findallNum
  simp [findallNumAux, h1, findallNumAux_nil]

theorem process_short (st : RemoteState) (s : String)
    (h : (findallNum (afterColon s.toList)).length < 5) :
    process_input_sensor_data st s = Except.error (PyError.valueError "unpack") := by
  unfold process_input_sensor_data
  rcases hfa : findallNum (afterColon s.toList) with
    _ | ⟨a, _ | ⟨b, _ | ⟨c, _ | ⟨d, _ | ⟨e, tail⟩⟩⟩⟩⟩
  · rfl
  · rfl
  · rfl
  · rfl
  · rfl
  · rcases tail with _ | ⟨f, tail⟩
    · rw [hfa] at h; simp at h
    · rfl

theorem wait_aux_never (conn : Nat → Bool) (h : ∀ k, conn k = false) :
    ∀ (rem t : Nat), wait_aux conn t rem = t + rem := by
  intro rem
  induction rem with
  | zero => intro t; rfl
  | succ rem ih =>
      intro t
      rw [wait_aux, h t]
      simp only [Bool.false_eq_true, if_false]
      rw [ih (t + 1)]
      omega

theorem wait_aux_le (conn : Nat → Bool) :
    ∀ (rem t : Nat), wait_aux conn t rem ≤ t + rem := by
  intro rem
  induction rem with
  | zero => intro t; simp [wait_aux]
  | succ rem ih =>
      intro t
      rw [wait_aux]
      by_cases hc : conn t = true
      · simp [hc]
      · simp only [hc, if_false, Bool.false_eq_true]
        have := ih (t + 1)
        omega

theorem wait_aux_finds (conn : Nat → Bool) :
    ∀ (rem t k : Nat), t ≤ k → k < t + rem → conn k = true →
      conn (wait_aux conn t rem) = true := by
  intro rem
  induction rem with
  | zero => intro t k h1 h2 _; omega
  | succ rem ih =>
      intro t k h1 h2 hk
      rw [wait_aux]
      by_cases hc : conn t = true
      · simp [hc]
      · simp only [hc, if_false, Bool.false_eq_true]
        have hne : t ≠ k := by
          intro he; rw [he] at hc; exact hc hk
        exact ih (t + 1) k (by omega) (by omega) hk

theorem update_update (d : DeviceState) (a b : Int × Int × Int) :
    update_sensor_data (update_sensor_data d a) b = update_sensor_data d b :=
  rfl

theorem main_loop_from_closed (device_id : String)
    (accel : Nat → Int × Int × Int) (rem : Nat → RemoteState)
    (now : Nat → String) :
    ∀ (n : Nat) (d : DeviceState) (i : Nat),
      main_loop_from device_id accel rem now d i n =
        ((List.range' i n).map fun k =>
          [MainEffect.publish (telemetry_topic device_id)
              (publish_payload (update_sensor_data d (accel k)) (rem k) (now k)),
           MainEffect.sleep 1]).flatten := by
  intro n
  induction n with
  | zero => intro d i; rfl
  | succ n ih =>
      intro d i
      rw [List.range'_succ, List.map_cons, List.flatten_cons, main_loop_from,
        ih (update_sensor_data d (accel i)) (i + 1)]
      simp [update_update]

/-- Claim C1 (code evaluation at the failing input): for a non-empty inbound
payload that is not valid UTF-8 JSON, `on_message` logs the decoding error
but does not drop the message cleanly: the `except` block lacks a `return`,
so the handler falls through to `data['led_on']` with `data` unbound and a
`NameError` escapes.  The device state, including `led_on`, is left
unchanged. -/
theorem on_message_invalid_json_nameerror :
    ∀ st : DeviceState,
      on_message st InPayload.undecodable =
        { state := st,
          effects := [Effect.printReceived, Effect.jsonLoads,
            Effect.printExceptionCaught],
          err := some (PyError.nameError "data") } :=
  fun _ => rfl

/-- Claim C7: for an inbound message with an empty payload, `on_message`
returns after the log line with no state change; the effect trace contains
no `json.loads` call, so no decoding is attempted. -/
theorem on_message_empty_payload_noop :
    ∀ st : DeviceState,
      on_message st InPayload.empty =
        { state := st,
          effects := [Effect.printReceived, Effect.printNoPayload],
          err := none } :=
  fun _ => rfl

/-- Claim C10: a non-empty payload decoding to a JSON object without a
`led_on` field makes `on_message` raise an uncaught `KeyError` after the
received-message log and the decode; the state is unchanged and no led
effect happens. -/
theorem on_message_missing_led_on_keyerror :
    ∀ (st : DeviceState) (fields : List (String × JVal)),
      lookupField fields "led_on" = none →
      on_message st (InPayload.json (JVal.obj fields)) =
        { state := st, effects := [Effect.printReceived, Effect.jsonLoads],
          err := some (PyError.keyError "led_on") } := by
  intro st fields h
  simp [on_message, getItem, h]

/-- Witness for C10 at a well-formed config object lacking `led_on`. -/
theorem on_message_missing_led_on_keyerror_witness :
    on_message device_init
        (InPayload.json (JVal.obj [("brightness", JVal.num 5)])) =
      { state := device_init,
        effects := [Effect.printReceived, Effect.jsonLoads],
        err := some (PyError.keyError "led_on") } :=
  on_message_missing_led_on_keyerror device_init
    [("brightness", JVal.num 5)] rfl

/-- Claim C3: `led_on` changes only on a decoded configuration whose
`led_on` value differs (under Python `==`) from the current one.  Part one:
an equal value is a no-op with no led effect.  Part two: the concrete
scenario of two consecutive payloads decoding to the object with `led_on`
mapped to `true` from the initial state: the first application changes the
state and lights the led, the second is a no-op.  Part three: whenever
`led_on` changed, the payload decoded to an object whose `led_on` value
differs from the previous state. -/
theorem led_on_changes_only_on_differing_config :
    (∀ (st : DeviceState) (data v : JVal),
      getItem data "led_on" = Except.ok v → pyEq v st.led_on = true →
      on_message st (InPayload.json data) =
        { state := st, effects := [Effect.printReceived, Effect.jsonLoads],
          err := none })
    ∧ (∀ st : DeviceState, st.led_on = JVal.bool false →
      on_message st (InPayload.json (JVal.obj [("led_on", JVal.bool true)])) =
        { state := { st with led_on := JVal.bool true },
          effects := [Effect.printReceived, Effect.jsonLoads,
            Effect.printLedOn, Effect.ledsOn],
          err := none }
      ∧ on_message { st with led_on := JVal.bool true }
          (InPayload.json (JVal.obj [("led_on", JVal.bool true)])) =
        { state := { st with led_on := JVal.bool true },
          effects := [Effect.printReceived, Effect.jsonLoads], err := none })
    ∧ (∀ (st : DeviceState) (p : InPayload),
      (on_message st p).state.led_on ≠ st.led_on →
      ∃ data v, p = InPayload.json data
        ∧ getItem data "led_on" = Except.ok v
        ∧ pyEq v st.led_on = false
        ∧ (on_message st p).state.led_on = v) := by
  refine ⟨?_, ?_, ?_⟩
  · intro st data v hget hpy
    simp [on_message, hget, hpy]
  · intro st h
    constructor
    · simp [on_message, getItem, lookupField, pyEq, h, JVal.truthy]
    · simp [on_message, getItem, lookupField, pyEq, JVal.truthy]
  · intro st p h
    cases p with
    | empty => simp [on_message] at h
    | undecodable => simp [on_message] at h
    | json data =>
        cases hget : getItem data "led_on" with
        | error e => simp [on_message, hget] at h
        | ok v =>
            by_cases hpy : pyEq v st.led_on = true
            · simp [on_message, hget, hpy] at h
            · refine ⟨data, v, rfl, hget, by simpa using hpy, ?_⟩
              cases htr : v.truthy <;> simp [on_message, hget, hpy, htr]

/-- Witness for C3: the two-identical-messages scenario from the initial
device state. -/
theorem led_on_changes_only_on_differing_config_witness :
    on_message device_init
        (InPayload.json (JVal.obj [("led_on", JVal.bool true)])) =
      { state := { device_init with led_on := JVal.bool true },
        effects := [Effect.printReceived, Effect.jsonLoads,
          Effect.printLedOn, Effect.ledsOn],
        err := none }
    ∧ on_message { device_init with led_on := JVal.bool true }
        (InPayload.json (JVal.obj [("led_on", JVal.bool true)])) =
      { state := { device_init with led_on := JVal.bool true },
        effects := [Effect.printReceived, Effect.jsonLoads], err := none } :=
  led_on_changes_only_on_differing_config.2.1 device_init rfl

/-- Claim C2: a serial line from which the parser extracts fewer than five
numeric tokens raises inside the unpacking before any reading is assigned;
the read-loop body catches it, so all five readings are unchanged, and the
loop continues with the remaining input (it also survives a line whose bytes
fail to decode). -/
theorem serial_malformed_line_state_unchanged :
    ∀ (st : RemoteState) (s : String),
      (findallNum (afterColon (stripCRLF s.toList))).length < 5 →
      process_input_sensor_data st (String.mk (stripCRLF s.toList)) =
          Except.error (PyError.valueError "unpack")
      ∧ serial_iteration st (SerialLine.bytes s) = st
      ∧ (∀ rest, read_loop st (SerialLine.bytes s :: rest) = read_loop st rest)
      ∧ serial_iteration st SerialLine.undecodable = st := by
  intro st s h
  have hproc : process_input_sensor_data st (String.mk (stripCRLF s.toList)) =
      Except.error (PyError.valueError "unpack") :=
    process_short st (String.mk (stripCRLF s.toList)) h
  have hiter : serial_iteration st (SerialLine.bytes s) = st := by
    simp only [serial_iteration]
    rw [hproc]
  refine ⟨hproc, hiter, ?_, rfl⟩
  intro rest
  unfold read_loop
  rw [List.foldl_cons, hiter]

/-- Witness for C2 at a line with no numeric token. -/
theorem serial_malformed_line_state_unchanged_witness :
    process_input_sensor_data remote_device_init
        (String.mk (stripCRLF (String.toList "hello"))) =
      Except.error (PyError.valueError "unpack")
    ∧ serial_iteration remote_device_init (SerialLine.bytes "hello") =
        remote_device_init
    ∧ read_loop remote_device_init [SerialLine.bytes "hello"] =
        remote_device_init := by
  have h := serial_malformed_line_state_unchanged remote_device_init "hello"
    (by decide)
  exact ⟨h.1, h.2.1, (h.2.2.1 []).trans rfl⟩

/-- Claim C4 (counterexample): the regex signs only the decimal branch, so
the signed integer token in the line `"-5"` is extracted as `"5"`, without
its sign, refuting that signed integers are extracted with the sign. -/
theorem findall_signed_integer_cex :
    findallNum (String.toList "-5") = ["5"]
    ∧ decide (findallNum (String.toList "-5") = ["-5"]) = false := by
  constructor
  · decide
  · decide

/-- Claim C4 (amended): the parser extracts optionally signed decimal tokens
with their sign and integer tokens without sign (a sign directly before a
bare integer is dropped), and when exactly five tokens result they are
assigned positionally to temperature, pressure, humidity, gas resistance
and altitude, as strings. -/
theorem findall_extraction_amended :
    (∀ ds : List Char, ds ≠ [] → (∀ c ∈ ds, Char.isDigit c = true) →
      findallNum ('-' :: ds) = [String.mk ds])
    ∧ (∀ (c : Char) (ds ds2 : List Char), c = '-' ∨ c = '+' →
      (∀ a ∈ ds, Char.isDigit a = true) → ds2 ≠ [] →
      (∀ a ∈ ds2, Char.isDigit a = true) →
      findallNum (c :: (ds ++ '.' :: ds2)) =
        [String.mk (c :: (ds ++ '.' :: ds2))])
    ∧ (∀ (st : RemoteState) (s : String) (a b c d e : String),
      findallNum (afterColon s.toList) = [a, b, c, d, e] →
      process_input_sensor_data st s = Except.ok { st with
        temperature := SensorVal.str a, pressure := SensorVal.str b,
        humidity := SensorVal.str c, gas_resistance := SensorVal.str d,
        altitude := SensorVal.str e }) := by
  refine ⟨?_, ?_, ?_⟩
  · intro ds hne h
    match ds, hne with
    | d :: ds, _ => exact findall_dash_int d ds h
  · intro c ds ds2 hc h h2ne h2
    exact findall_signed_float c ds ds2 hc h h2ne h2
  · intro st s a b c d e hfa
    unfold process_input_sensor_data
    rw [hfa]

/-- Witness for C4 (amended): the dropped sign on `-5` and the positional
assignment on a five-token line. -/
theorem findall_extraction_amended_witness :
    findallNum ('-' :: ['5']) = [String.mk ['5']]
    ∧ process_input_sensor_data remote_device_init "t:1,2,3,4,5" =
      Except.ok { remote_device_init with
        temperature := SensorVal.str "1", pressure := SensorVal.str "2",
        humidity := SensorVal.str "3", gas_resistance := SensorVal.str "4",
        altitude := SensorVal.str "5" } :=
  ⟨findall_extraction_amended.1 ['5'] (by decide) (by decide),
    findall_extraction_amended.2.2 remote_device_init "t:1,2,3,4,5"
      "1" "2" "3" "4" "5" (by decide)⟩

/-- Claim C5 (counterexample): `create_jwt` calls `utcnow()` once for `iat`
and again for `exp`; with a clock that advances one second between the two
samples the expiry is 3601 seconds after the issued-at claim, not exactly
60 minutes. -/
theorem create_jwt_expiry_gap_cex :
    (create_jwt "my-project" "rsa_private.pem" "RS256" (fun n => (n : Int))
        (fun _ => some "KEY")).map
        (fun tok => tok.claims.exp - tok.claims.iat) =
      some 3601
    ∧ decide ((3601 : Int) = 3600) = false := by
  constructor
  · rfl
  · rfl

/-- Claim C5 (amended): for a readable key file, `create_jwt` produces a
token whose claims carry the audience equal to the project id, an issued-at
equal to the first clock sample and an expiry equal to the second clock
sample plus 60 minutes; when the two samples coincide the expiry is exactly
60 minutes after the issued-at. -/
theorem create_jwt_claims_amended :
    ∀ (project_id key_file algorithm : String) (utcnow : Nat → Int)
      (fs : String → Option String) (key : String),
      fs key_file = some key →
      create_jwt project_id key_file algorithm utcnow fs =
        some { claims := { iat := utcnow 0, exp := utcnow 1 + 3600,
                           aud := project_id },
               key := key, algorithm := algorithm }
      ∧ (utcnow 1 = utcnow 0 → (utcnow 1 + 3600) - utcnow 0 = 3600) := by
  intro project_id key_file algorithm utcnow fs key h
  constructor
  · simp [create_jwt, h]
  · intro h2
    rw [h2]
    omega

/-- Witness for C5 (amended) with a constant clock. -/
theorem create_jwt_claims_amended_witness :
    create_jwt "p" "k.pem" "RS256" (fun _ => 1000) (fun _ => some "KEY") =
      some { claims := { iat := 1000, exp := 1000 + 3600, aud := "p" },
             key := "KEY", algorithm := "RS256" }
    ∧ ((1000 : Int) = 1000 → ((1000 : Int) + 3600) - 1000 = 3600) :=
  create_jwt_claims_amended "p" "k.pem" "RS256" (fun _ => 1000)
    (fun _ => some "KEY") "KEY" rfl

/-- Claim C6: processing the well-formed serial line `"x:1.0,2,3.5,4,5"`
drops everything up to and including the first colon, extracts the five
tokens in order, and stores them positionally into the five readings. -/
theorem process_well_formed_line :
    ∀ st : RemoteState,
      afterColon (String.toList "x:1.0,2,3.5,4,5") =
        String.toList "1.0,2,3.5,4,5"
      ∧ findallNum (String.toList "1.0,2,3.5,4,5") =
        ["1.0", "2", "3.5", "4", "5"]
      ∧ process_input_sensor_data st "x:1.0,2,3.5,4,5" =
        Except.ok { st with
          temperature := SensorVal.str "1.0", pressure := SensorVal.str "2",
          humidity := SensorVal.str "3.5", gas_resistance := SensorVal.str "4",
          altitude := SensorVal.str "5" } := by
  intro st
  have hfa : findallNum (afterColon (String.toList "x:1.0,2,3.5,4,5")) =
      ["1.0", "2", "3.5", "4", "5"] := by decide
  refine ⟨by decide, by decide, ?_⟩
  unfold process_input_sensor_data
  rw [hfa]

/-- Claim C8: when the connectivity flag is never set, the wait loop polls
once per second and raises the fatal error after exactly `timeout` one-second
sleeps (so no earlier than `timeout` and no later than `timeout + 1` seconds
after the call); when the flag is seen true at some poll before the timeout,
the call returns without raising. -/
theorem wait_for_connection_spec :
    ∀ (conn : Nat → Bool) (timeout : Nat),
      ((∀ k, conn k = false) →
        wait_for_connection conn timeout =
            Except.error "Could not connect to MQTT bridge."
          ∧ wait_aux conn 0 timeout = timeout
          ∧ timeout ≤ wait_aux conn 0 timeout
          ∧ wait_aux conn 0 timeout ≤ timeout + 1)
      ∧ (∀ k, k < timeout → conn k = true →
          ∃ t, t ≤ timeout ∧ wait_for_connection conn timeout = Except.ok t) := by
  intro conn timeout
  constructor
  · intro h
    have he : wait_aux conn 0 timeout = timeout := by
      have := wait_aux_never conn h timeout 0
      simpa using this
    refine ⟨?_, he, by omega, by omega⟩
    unfold wait_for_connection
    rw [he, h timeout]
    simp
  · intro k hk hck
    have hc : conn (wait_aux conn 0 timeout) = true :=
      wait_aux_finds conn timeout 0 k (Nat.zero_le k) (by omega) hck
    refine ⟨wait_aux conn 0 timeout, ?_, ?_⟩
    · have := wait_aux_le conn timeout 0
      omega
    · unfold wait_for_connection
      rw [hc]
      simp

/-- Witness for C8: with a flag that never connects and `timeout = 5` the
call raises at exactly 5 elapsed seconds; with a flag first true at the
poll after 3 seconds it returns without raising. -/
theorem wait_for_connection_spec_witness :
    (wait_for_connection (fun _ => false) 5 =
        Except.error "Could not connect to MQTT bridge."
      ∧ wait_aux (fun _ => false) 0 5 = 5
      ∧ 5 ≤ wait_aux (fun _ => false) 0 5
      ∧ wait_aux (fun _ => false) 0 5 ≤ 6)
    ∧ ∃ t, t ≤ 5 ∧
        wait_for_connection (fun k => decide (k = 3)) 5 = Except.ok t :=
  ⟨(wait_for_connection_spec (fun _ => false) 5).1 (fun _ => rfl),
    (wait_for_connection_spec (fun k => decide (k = 3)) 5).2 3 (by omega)
      (by decide)⟩

/-- Claim C9: the main loop runs `num_messages` iterations; each iteration
publishes, on the per-device telemetry topic, the JSON object with exactly
the eleven fields in order (proximity, luminance, accel_x, accel_y, accel_z,
time, temperature, pressure, humidity, gas_resistance, altitude), combining
the device state, the accelerometer sample and the peripheral readings, and
then sleeps one second. -/
theorem main_loop_spec :
    ∀ (device_id : String) (accel : Nat → Int × Int × Int)
      (rem : Nat → RemoteState) (now : Nat → String) (d : DeviceState)
      (num_messages : Nat),
      main_loop device_id accel rem now d num_messages =
        ((List.range' 0 num_messages).map fun k =>
          [MainEffect.publish (telemetry_topic device_id)
              (publish_payload (update_sensor_data d (accel k)) (rem k)
                (now k)),
           MainEffect.sleep 1]).flatten
      ∧ ∀ (d2 : DeviceState) (r : RemoteState) (t : String),
          (publish_payload d2 r t).map Prod.fst =
            ["proximity", "luminance", "accel_x", "accel_y", "accel_z",
             "time", "temperature", "pressure", "humidity", "gas_resistance",
             "altitude"] := by
  intro device_id accel rem now d num_messages
  exact ⟨main_loop_from_closed device_id accel rem now num_messages d 0,
    fun _ _ _ => rfl⟩

end IotDevice
